import Mathlib

/-!
Verification development for the modern-auth repository.

The definitions below are shallow embeddings of the JavaScript source:

* `src/server/index.js` — the in-memory Express server: the challenge map
  (`challenges`), the registration / authentication / step-up route handlers,
  and the analytics counters.
* `src/unnamed/part_007` — the database-backed server variant: its step-up
  handler additionally updates the transactions table via
  `Transaction.updateStatus` and `Transaction.markStepupCompleted`.
* `src/client/src/services/deviceCapabilities.js` — the client-side device
  capability resolver.
* the `webauthnService` client module (in `src/unnamed/part_006`) — the
  fallback-retry wrappers `tryFallbackAuthentication` /
  `tryFallbackRegistration`.

External collaborators (the FIDO2 verification library, random value
generation, the clock) are modelled as explicit parameters: a handler takes
the verifier result, the freshly drawn identifiers and the current time as
arguments.  Monetary amounts are modelled as rationals, timestamps as
integers (milliseconds).
-/

namespace ModernAuth

/-! ### JavaScript `Map` as an association list

The server keeps its challenges in a global `Map`.  We model it as an
association list with `get` / `set` / `delete` following the `Map` API:
`get` returns the first (unique) binding, `set` replaces an existing binding
or appends, `delete` removes the binding. -/

def mapGet {α : Type} (m : List (String × α)) (k : String) : Option α :=
  match m with
  | [] => none
  | (k', v) :: rest => if k' = k then some v else mapGet rest k

def mapSet {α : Type} (m : List (String × α)) (k : String) (v : α) :
    List (String × α) :=
  match m with
  | [] => [(k, v)]
  | (k', v') :: rest =>
      if k' = k then (k', v) :: rest else (k', v') :: mapSet rest k v

def mapDelete {α : Type} (m : List (String × α)) (k : String) :
    List (String × α) :=
  match m with
  | [] => []
  | (k', v') :: rest =>
      if k' = k then rest else (k', v') :: mapDelete rest k

theorem mapGet_mapSet_self {α : Type} (m : List (String × α)) (k : String)
    (v : α) : mapGet (mapSet m k v) k = some v := by
  induction m with
  | nil => simp [mapGet, mapSet]
  | cons hd tl ih =>
      obtain ⟨k', v'⟩ := hd
      by_cases h : k' = k
      · simp [mapGet, mapSet, h]
      · simp [mapGet, mapSet, h, ih]

theorem mapGet_mapDelete_self {α : Type} (m : List (String × α)) (k : String)
    (hnd : (m.map Prod.fst).Nodup) : mapGet (mapDelete m k) k = none := by
  induction m with
  | nil => simp [mapGet, mapDelete]
  | cons hd tl ih =>
      obtain ⟨k', v'⟩ := hd
      simp only [List.map_cons, List.nodup_cons] at hnd
      by_cases h : k' = k
      · subst h
        simp only [mapDelete, if_pos rfl]
        -- `k'` does not occur in the tail, so lookup fails there
        clear ih
        induction tl with
        | nil => simp [mapGet]
        | cons hd2 tl2 ih2 =>
            obtain ⟨k2, v2⟩ := hd2
            simp only [List.map_cons, List.mem_cons, List.nodup_cons] at hnd
            have hk2 : ¬ k2 = k' := fun h2 => hnd.1 (Or.inl h2.symm)
            simp only [mapGet, if_neg hk2]
            exact ih2 ⟨fun hm => hnd.1 (Or.inr hm), hnd.2.2⟩
      · simp only [mapDelete, if_neg h, mapGet, if_neg h]
        exact ih hnd.2

/-- Every key of `mapSet m k v` is a key of `m` or the inserted key `k`. -/
theorem mem_keys_mapSet {α : Type} (m : List (String × α)) (k k' : String)
    (v : α) (hmem : k' ∈ (mapSet m k v).map Prod.fst) :
    k' ∈ m.map Prod.fst ∨ k' = k := by
  induction m with
  | nil =>
      simp only [mapSet, List.map_cons, List.map_nil, List.mem_singleton]
        at hmem
      exact Or.inr hmem
  | cons hd tl ih =>
      obtain ⟨k2, v2⟩ := hd
      simp only [List.map_cons, List.mem_cons]
      by_cases h2 : k2 = k
      · simp only [mapSet, if_pos h2, List.map_cons, List.mem_cons] at hmem
        rcases hmem with h3 | h3
        · exact Or.inr (h3.trans h2)
        · exact Or.inl (Or.inr h3)
      · simp only [mapSet, if_neg h2, List.map_cons, List.mem_cons] at hmem
        rcases hmem with h3 | h3
        · exact Or.inl (Or.inl h3)
        · rcases ih h3 with h4 | h4
          · exact Or.inl (Or.inr h4)
          · exact Or.inr h4

/-- `mapSet` preserves duplicate-freeness of the key list. -/
theorem mapFst_mapSet {α : Type} (m : List (String × α)) (k : String) (v : α)
    (hnd : (m.map Prod.fst).Nodup) : ((mapSet m k v).map Prod.fst).Nodup := by
  induction m with
  | nil => simp [mapSet]
  | cons hd tl ih =>
      obtain ⟨k', v'⟩ := hd
      simp only [List.map_cons, List.nodup_cons] at hnd
      by_cases h : k' = k
      · simp only [mapSet, if_pos h, List.map_cons, List.nodup_cons]
        exact ⟨hnd.1, hnd.2⟩
      · simp only [mapSet, if_neg h, List.map_cons, List.nodup_cons]
        refine ⟨fun hmem => ?_, ih hnd.2⟩
        rcases mem_keys_mapSet tl k k' v hmem with h3 | h3
        · exact hnd.1 h3
        · exact h h3

/-! ### Data model (src/server/index.js)

The in-memory server stores users keyed by e-mail; each user owns a list of
WebAuthn credentials.  The `challenges` map holds three kinds of entries,
mirroring the objects stored at the three `challenges.set` call sites. -/

structure Credential where
  id : String
  publicKey : String
  counter : Int
  transports : List String
deriving DecidableEq

structure User where
  id : String
  username : String
  email : String
  credentials : List Credential
deriving DecidableEq

structure Transaction where
  id : String
  amount : ℚ
  description : String
  userId : String
  status : String
deriving DecidableEq

/-- The three shapes of `challenges` map entries in `src/server/index.js`:
registration and authentication entries carry the pending user and a
creation time; step-up entries additionally carry the pending transaction,
the OTP value and an expiry time (only step-up entries have one). -/
inductive ChallengeData where
  | registrationChallenge (user : User) (createdAt : Int)
  | authenticationChallenge (user : User) (createdAt : Int)
  | stepupChallenge (transaction : Transaction) (otp : String)
      (expiry : Int) (createdAt : Int)
deriving DecidableEq

/-- Global mutable state of the in-memory server (`src/server/index.js`):
the `users` and `challenges` maps, the completed-transaction list
`analytics.transactions`, and the analytics counters touched by the
embedded handlers. -/
structure ServerState where
  users : List (String × User)
  challenges : List (String × ChallengeData)
  transactions : List Transaction
  signupCompletedPasskey : Nat
  stepUpTriggered : Nat
  stepUpCompletedCount : Nat
deriving DecidableEq

/-! ### Results returned by the route handlers

Each inductive mirrors the JSON bodies a route can answer with.  Distinct
error strings in the source become distinct constructor arguments or
constructors, so two route outcomes are equal in the model exactly when the
source produces indistinguishable responses. -/

inductive RegOptionsResult where
  | ok (challenge : String)
  | failure (msg : String)
deriving DecidableEq

inductive VerifyResult where
  | ok
  | failure (msg : String)
deriving DecidableEq

/-- Outcome reported by the external FIDO2 library for
`verifyRegistrationResponse` (modelled abstractly: the wrapper only reads
`verified` and the extracted `registrationInfo` fields). -/
structure RegVerification where
  verified : Bool
  credentialID : String
  credentialPublicKey : String
  counter : Int
deriving DecidableEq

/-- Outcome reported by the external FIDO2 library for
`verifyAuthenticationResponse`: the wrapper reads `verified` and
`authenticationInfo.newCounter`. -/
structure AuthVerification where
  verified : Bool
  newCounter : Int
deriving DecidableEq

inductive SubmitResult where
  | stepUpRequired (transactionId : String)
  | completedDirectly (t : Transaction)
  | failure (msg : String)
deriving DecidableEq

/-- The three distinct 400-responses of `POST /api/transactions/stepup`:
`Invalid OTP`, `Transaction ID mismatch`, `OTP expired`. -/
inductive StepupError where
  | invalidOtp
  | transactionMismatch
  | otpExpired
deriving DecidableEq

inductive StepupResult where
  | ok (t : Transaction)
  | failure (e : StepupError)
deriving DecidableEq

/-! ### Route handlers of src/server/index.js

Every handler is a pure function from its request fields, the external
inputs (verifier result, fresh random values, current time) and the current
server state to a response and the next state. -/

/-- `POST /api/auth/register/options` (src/server/index.js lines 85 to 133):
rejects missing fields and already-registered e-mails; otherwise builds a
fresh user object, stores a registration challenge entry holding it, and
returns the options (represented here by the embedded challenge value).
The fresh uuid and challenge value are parameters. -/
def registerOptions (username email freshUserId freshChallenge : String)
    (now : Int) (s : ServerState) : RegOptionsResult × ServerState :=
  if username = "" ∨ email = "" then
    (.failure "Username and email are required", s)
  else if (mapGet s.users email).isSome then
    (.failure "User already exists", s)
  else
    let user : User :=
      { id := freshUserId, username := username, email := email,
        credentials := [] }
    let challenges' :=
      mapSet s.challenges freshChallenge (.registrationChallenge user now)
    (.ok freshChallenge, { s with challenges := challenges' })

/-- `POST /api/auth/register/verify` (src/server/index.js lines 135 to 184):
looks the challenge up and requires kind `registration`; on a verified
response appends the new credential to the pending user, persists the user,
deletes the challenge and bumps `analytics.signupCompleted.passkey`; an
unverified response changes nothing. -/
def registerVerify (expectedChallenge : String) (ver : RegVerification)
    (transports : List String) (s : ServerState) :
    VerifyResult × ServerState :=
  match mapGet s.challenges expectedChallenge with
  | some (.registrationChallenge user _) =>
      if ver.verified then
        let user' : User :=
          { user with credentials := user.credentials ++
              [{ id := ver.credentialID,
                 publicKey := ver.credentialPublicKey,
                 counter := ver.counter,
                 transports := transports }] }
        ( .ok,
          { s with
              users := mapSet s.users user'.email user',
              challenges := mapDelete s.challenges expectedChallenge,
              signupCompletedPasskey := s.signupCompletedPasskey + 1 } )
      else (.failure "Registration verification failed", s)
  | _ => (.failure "Invalid challenge", s)

/-- First credential of the list whose id matches, mirroring
`user.credentials.find(cred => cred.id.toString() === credential.id)`. -/
def findCredential : List Credential → String → Option Credential
  | [], _ => none
  | c :: cs, cid => if c.id = cid then some c else findCredential cs cid

/-- In-place counter update of the credential object found by `find`,
mirroring `userCredential.counter = verification.authenticationInfo.newCounter`
(only the first matching array element is mutated). -/
def updateCounterFirst : List Credential → String → Int → List Credential
  | [], _, _ => []
  | c :: cs, cid, n =>
      if c.id = cid then { c with counter := n } :: cs
      else c :: updateCounterFirst cs cid n

/-- `POST /api/auth/login/verify` (src/server/index.js lines 219 to 273):
looks the challenge up and requires kind `authentication`; resolves the
credential referenced by the response; on a verified response overwrites the
stored counter with the verifier-reported `newCounter` (no comparison with
the stored value is made), persists the user and deletes the challenge. -/
def loginVerify (expectedChallenge credentialId : String)
    (ver : AuthVerification) (s : ServerState) : VerifyResult × ServerState :=
  match mapGet s.challenges expectedChallenge with
  | some (.authenticationChallenge user _) =>
      match findCredential user.credentials credentialId with
      | none => (.failure "Credential not found", s)
      | some _ =>
          if ver.verified then
            let credentials' :=
              updateCounterFirst user.credentials credentialId ver.newCounter
            let user' : User := { user with credentials := credentials' }
            ( .ok,
              { s with
                  users := mapSet s.users user'.email user',
                  challenges := mapDelete s.challenges expectedChallenge } )
          else (.failure "Authentication verification failed", s)
  | _ => (.failure "Invalid challenge", s)

/-- `POST /api/transactions` (src/server/index.js lines 276 to 333): builds a
pending transaction; above the hard-coded threshold 150 it bumps
`stepUpAuth.triggered` and stores a step-up challenge keyed by the fresh
6-digit OTP with a 5-minute expiry, leaving the transaction pending;
otherwise it completes the transaction directly and records it. -/
def submitTransaction (amount : ℚ) (description userId : String)
    (freshTransactionId otp : String) (now : Int) (s : ServerState) :
    SubmitResult × ServerState :=
  if amount = 0 ∨ description = "" ∨ userId = "" then
    (.failure "Amount, description, and userId are required", s)
  else
    let t : Transaction :=
      { id := freshTransactionId, amount := amount,
        description := description, userId := userId, status := "pending" }
    if t.amount > 150 then
      ( .stepUpRequired t.id,
        { s with
            stepUpTriggered := s.stepUpTriggered + 1,
            challenges :=
              mapSet s.challenges otp
                (.stepupChallenge t otp (now + 5 * 60 * 1000) now) } )
    else
      let t' : Transaction := { t with status := "completed" }
      (.completedDirectly t', { s with transactions := s.transactions ++ [t'] })

/-- `POST /api/transactions/stepup` (src/server/index.js lines 335 to 370):
looks the challenge up by OTP and requires kind `stepup` (else
`Invalid OTP`); then checks the transaction id (mismatch leaves the entry in
place); then the expiry (an expired entry is deleted and reported as
`OTP expired`); on success completes the transaction, records it, bumps
`stepUpAuth.completed` and deletes the OTP entry. -/
def stepupVerify (otp transactionId : String) (now : Int) (s : ServerState) :
    StepupResult × ServerState :=
  match mapGet s.challenges otp with
  | some (.stepupChallenge t _ expiry _) =>
      if t.id ≠ transactionId then (.failure .transactionMismatch, s)
      else if now > expiry then
        ( .failure .otpExpired,
          { s with challenges := mapDelete s.challenges otp } )
      else
        let t' : Transaction := { t with status := "completed" }
        ( .ok t',
          { s with
              transactions := s.transactions ++ [t'],
              stepUpCompletedCount := s.stepUpCompletedCount + 1,
              challenges := mapDelete s.challenges otp } )
  | _ => (.failure .invalidOtp, s)

/-! ### Database-backed server variant (src/unnamed/part_007)

The repository also ships a database-backed server.  Its step-up handler has
the same challenge logic as the in-memory one but finishes by updating the
`transactions` table through `Transaction.updateStatus` and
`Transaction.markStepupCompleted` (src/server/models/Transaction.js), which
is where the per-transaction `stepup_completed` flag lives.  We embed the
table as an association list keyed by transaction id (the SQL primary
key). -/

structure DbTransaction where
  id : String
  userId : String
  amount : ℚ
  requiresStepup : Bool
  status : String
  stepupCompleted : Bool
deriving DecidableEq

inductive DbChallengeData where
  | registrationChallenge (userId : String) (createdAt : Int)
  | authenticationChallenge (userId : String) (createdAt : Int)
  | stepupChallenge (transaction : DbTransaction) (otp : String)
      (expiry : Int) (createdAt : Int)
deriving DecidableEq

structure DbState where
  transactionsTable : List (String × DbTransaction)
  challenges : List (String × DbChallengeData)
  stepUpCompletedCount : Nat
deriving DecidableEq

/-- `Transaction.updateStatus` (src/server/models/Transaction.js lines 64 to
74): `UPDATE transactions SET status = $2 WHERE id = $1` — the rows whose
primary key matches get the new status, all others are untouched. -/
def dbUpdateStatus : List (String × DbTransaction) → String → String →
    List (String × DbTransaction)
  | [], _, _ => []
  | (k, r) :: tl, id, status =>
      (k, if k = id then { r with status := status } else r)
        :: dbUpdateStatus tl id status

/-- `Transaction.markStepupCompleted` (src/server/models/Transaction.js lines
77 to 86): `UPDATE transactions SET stepup_completed = true WHERE id = $1`. -/
def dbMarkStepupCompleted : List (String × DbTransaction) → String →
    List (String × DbTransaction)
  | [], _ => []
  | (k, r) :: tl, id =>
      (k, if k = id then { r with stepupCompleted := true } else r)
        :: dbMarkStepupCompleted tl id

inductive DbStepupResult where
  | ok (updated : Option DbTransaction)
  | failure (e : StepupError)
deriving DecidableEq

/-- `POST /api/transactions/stepup` of the database-backed server
(src/unnamed/part_007 lines 387 to 425): identical challenge checks to the
in-memory handler; on success it sets the table row status to `completed`,
marks `stepup_completed = true`, bumps `stepUpAuth.completed` and deletes
the OTP entry.  The response carries the row as returned by
`updateStatus` (status already updated, flag update not yet visible in the
returned row). -/
def dbStepupVerify (otp transactionId : String) (now : Int) (s : DbState) :
    DbStepupResult × DbState :=
  match mapGet s.challenges otp with
  | some (.stepupChallenge t _ expiry _) =>
      if t.id ≠ transactionId then (.failure .transactionMismatch, s)
      else if now > expiry then
        ( .failure .otpExpired,
          { s with challenges := mapDelete s.challenges otp } )
      else
        let tbl1 := dbUpdateStatus s.transactionsTable t.id "completed"
        let tbl2 := dbMarkStepupCompleted tbl1 t.id
        ( .ok (mapGet tbl1 t.id),
          { s with
              transactionsTable := tbl2,
              stepUpCompletedCount := s.stepUpCompletedCount + 1,
              challenges := mapDelete s.challenges otp } )
  | _ => (.failure .invalidOtp, s)

/-! ### Client-side device capability resolver
(src/client/src/services/deviceCapabilities.js)

The browser environment probed by `detectCapabilities` is a record of the
observable probe outcomes; the derived capabilities follow the source
line by line. -/

structure BrowserEnv where
  apiPresent : Bool
  hasUVPAAFunction : Bool
  uvpaaResult : Bool
  isSecureContext : Bool
  protocolHttps : Bool
  hostnameIsLocalhost : Bool
deriving DecidableEq

structure Capabilities where
  webauthnSupported : Bool
  platformAuthenticator : Bool
  userVerification : Bool
  secureContext : Bool
  httpsOrLocalhost : Bool
  availableMethods : List String
deriving DecidableEq

/-- `determineAvailableMethods` (deviceCapabilities.js lines 46 to 63):
pushes `device` when a platform authenticator is available, always pushes
`pin`, and pushes `both` when more than one method was collected. -/
def determineAvailableMethods (platformAuthenticator : Bool) : List String :=
  let methods : List String := if platformAuthenticator then ["device"] else []
  let methods := methods ++ ["pin"]
  if methods.length > 1 then methods ++ ["both"] else methods

/-- `detectCapabilities` (deviceCapabilities.js lines 14 to 44): probes
WebAuthn API presence, the platform authenticator (only when the API and its
probe function exist), secure context and protocol, then derives
`availableMethods`. -/
def detectCapabilities (e : BrowserEnv) : Capabilities :=
  let webauthnSupported := e.apiPresent
  let platformAuthenticator :=
    webauthnSupported && e.hasUVPAAFunction && e.uvpaaResult
  { webauthnSupported := webauthnSupported
    platformAuthenticator := platformAuthenticator
    userVerification := platformAuthenticator
    secureContext := e.isSecureContext
    httpsOrLocalhost := e.protocolHttps || e.hostnameIsLocalhost
    availableMethods := determineAvailableMethods platformAuthenticator }

/-! ### Client fallback wrappers (webauthnService, src/unnamed/part_006)

The service mutates a single preference slot (`this.authPreference`,
mirrored into `localStorage`).  The outcome of the retried ceremony is an
external input, distinguished by where the retry fails, because the source
restores the preference at different points on those paths. -/

structure ClientState where
  availableMethods : List String
  platformAuthenticator : Bool
  authPreference : Option String
  storedPreference : Option String
deriving DecidableEq

/-- `getAuthPreference` (deviceCapabilities.js lines 74 to 79): lazily
loads the preference from `localStorage`, defaulting to `both`. -/
def getAuthPreference (s : ClientState) : String × ClientState :=
  match s.authPreference with
  | some p => (p, s)
  | none =>
      let p := s.storedPreference.getD "both"
      (p, { s with authPreference := some p })

/-- `setAuthPreference` (deviceCapabilities.js lines 65 to 72): stores the
preference only when it is among `availableMethods`, else returns `false`
and changes nothing. -/
def setAuthPreference (s : ClientState) (preference : String) :
    Bool × ClientState :=
  if preference ∈ s.availableMethods then
    ( true,
      { s with authPreference := some preference,
               storedPreference := some preference } )
  else (false, s)

/-- `getFallbackMethod` (deviceCapabilities.js lines 116 to 123). -/
def getFallbackMethod (s : ClientState) (primaryMethod : String) :
    Option String :=
  if primaryMethod = "device" then some "pin"
  else if primaryMethod = "pin" then
    (if s.platformAuthenticator then some "device" else none)
  else none

/-- Where the retried fallback ceremony ends: the begin call fails, the
browser ceremony throws, the complete call fails, or everything succeeds.
The first two jump to the `catch` block before the inline restore; the
third runs the inline restore first. -/
inductive RetryOutcome where
  | beginFailure
  | startException
  | completeFailure
  | retrySuccess
deriving DecidableEq

inductive FallbackResult where
  | ok (usedFallback : Bool) (fallbackMethod : String)
  | noFallbackErr
  | fallbackFailedErr
deriving DecidableEq

/-- The `catch` block of `tryFallbackAuthentication` /
`tryFallbackRegistration`: `setAuthPreference(getAuthPreference())` — it
stores the preference slot back into itself. -/
def restoreInCatch (s : ClientState) : ClientState :=
  let (cur, s1) := getAuthPreference s
  (setAuthPreference s1 cur).2

/-- `tryFallbackAuthentication` (src/unnamed/part_006 lines 801 to 856;
`tryFallbackRegistration`, lines 657 to 713, is structurally identical):
computes the fallback of the current preference, throws when none is
usable, otherwise records the current preference, overrides it with the
fallback, retries the ceremony once and then: on begin-failure or a thrown
browser ceremony it only runs the catch-block restore; on complete-failure
it first runs `setAuthPreference(originalPreference)` and then the
catch-block restore; on success it runs `setAuthPreference
(originalPreference)` and returns the result tagged with the fallback. -/
def tryFallbackAuthentication (outcome : RetryOutcome) (s0 : ClientState) :
    FallbackResult × ClientState :=
  let (pref, s1) := getAuthPreference s0
  match getFallbackMethod s1 pref with
  | none => (.noFallbackErr, s1)
  | some fallbackMethod =>
      if fallbackMethod ∈ s1.availableMethods then
        let (originalPreference, s2) := getAuthPreference s1
        let s3 := (setAuthPreference s2 fallbackMethod).2
        match outcome with
        | .beginFailure => (.fallbackFailedErr, restoreInCatch s3)
        | .startException => (.fallbackFailedErr, restoreInCatch s3)
        | .completeFailure =>
            let s4 := (setAuthPreference s3 originalPreference).2
            (.fallbackFailedErr, restoreInCatch s4)
        | .retrySuccess =>
            let s4 := (setAuthPreference s3 originalPreference).2
            (.ok true fallbackMethod, s4)
      else (.noFallbackErr, s1)

/-! ### Behavioural lemmas about the consume paths -/

theorem stepupVerify_not_found (s : ServerState) (otp tid : String)
    (now : Int) (h : mapGet s.challenges otp = none) :
    stepupVerify otp tid now s = (.failure .invalidOtp, s) := by
  simp [stepupVerify, h]

theorem stepupVerify_wrong_kind_reg (s : ServerState) (otp tid : String)
    (now cr : Int) (u : User)
    (h : mapGet s.challenges otp = some (.registrationChallenge u cr)) :
    stepupVerify otp tid now s = (.failure .invalidOtp, s) := by
  simp [stepupVerify, h]

theorem stepupVerify_wrong_kind_auth (s : ServerState) (otp tid : String)
    (now cr : Int) (u : User)
    (h : mapGet s.challenges otp = some (.authenticationChallenge u cr)) :
    stepupVerify otp tid now s = (.failure .invalidOtp, s) := by
  simp [stepupVerify, h]

theorem stepupVerify_mismatch (s : ServerState) (otp tid otpv : String)
    (now exp cr : Int) (t : Transaction)
    (h : mapGet s.challenges otp = some (.stepupChallenge t otpv exp cr))
    (hne : t.id ≠ tid) :
    stepupVerify otp tid now s = (.failure .transactionMismatch, s) := by
  simp [stepupVerify, h, hne]

theorem stepupVerify_expired (s : ServerState) (otp tid otpv : String)
    (now exp cr : Int) (t : Transaction)
    (h : mapGet s.challenges otp = some (.stepupChallenge t otpv exp cr))
    (htid : t.id = tid) (hexp : now > exp) :
    stepupVerify otp tid now s =
      (.failure .otpExpired,
       { s with challenges := mapDelete s.challenges otp }) := by
  simp [stepupVerify, h, htid, hexp]

theorem stepupVerify_success (s : ServerState) (otp tid otpv : String)
    (now exp cr : Int) (t : Transaction)
    (h : mapGet s.challenges otp = some (.stepupChallenge t otpv exp cr))
    (htid : t.id = tid) (hexp : ¬ now > exp) :
    stepupVerify otp tid now s =
      (.ok { t with status := "completed" },
       { s with
           transactions := s.transactions ++ [{ t with status := "completed" }],
           stepUpCompletedCount := s.stepUpCompletedCount + 1,
           challenges := mapDelete s.challenges otp }) := by
  simp [stepupVerify, h, htid, hexp]

theorem registerVerify_invalid (s : ServerState) (v : String)
    (ver : RegVerification) (tps : List String)
    (h : ∀ u cr, mapGet s.challenges v ≠ some (.registrationChallenge u cr)) :
    registerVerify v ver tps s = (.failure "Invalid challenge", s) := by
  unfold registerVerify
  rcases hm : mapGet s.challenges v with _ | data
  · rfl
  · cases data with
    | registrationChallenge u cr => exact absurd hm (h u cr)
    | authenticationChallenge u cr => rfl
    | stepupChallenge t otpv exp cr => rfl

theorem loginVerify_invalid (s : ServerState) (v cid : String)
    (ver : AuthVerification)
    (h : ∀ u cr,
      mapGet s.challenges v ≠ some (.authenticationChallenge u cr)) :
    loginVerify v cid ver s = (.failure "Invalid challenge", s) := by
  unfold loginVerify
  rcases hm : mapGet s.challenges v with _ | data
  · rfl
  · cases data with
    | registrationChallenge u cr => rfl
    | authenticationChallenge u cr => exact absurd hm (h u cr)
    | stepupChallenge t otpv exp cr => rfl

/-! ### C1 -/

/-- C1: a consume operation succeeds at most once per challenge value.  For
each of the three verify handlers: (i) whenever the handler reports success,
the challenge entry is gone from the resulting state, and (ii) in any state
whose challenge map has no entry for the value, every consume attempt fails
with that handler's invalid-challenge error and returns the state unchanged
(so after the first successful consume, all later attempts with the same
value fail and perform no state change). -/
theorem challenge_consume_at_most_once (s : ServerState) (v : String)
    (hnd : (s.challenges.map Prod.fst).Nodup) :
    ((∀ ver tps, (registerVerify v ver tps s).1 = VerifyResult.ok →
        mapGet ((registerVerify v ver tps s).2).challenges v = none)
  ∧ (∀ cid ver, (loginVerify v cid ver s).1 = VerifyResult.ok →
        mapGet ((loginVerify v cid ver s).2).challenges v = none)
  ∧ (∀ tid now t, (stepupVerify v tid now s).1 = StepupResult.ok t →
        mapGet ((stepupVerify v tid now s).2).challenges v = none))
  ∧ (mapGet s.challenges v = none →
      (∀ ver tps, registerVerify v ver tps s = (.failure "Invalid challenge", s))
    ∧ (∀ cid ver, loginVerify v cid ver s = (.failure "Invalid challenge", s))
    ∧ (∀ tid now, stepupVerify v tid now s = (.failure .invalidOtp, s))) := by
  constructor
  · refine ⟨fun ver tps hok => ?_, fun cid ver hok => ?_, fun tid now t hok => ?_⟩
    · unfold registerVerify at hok ⊢
      rcases hm : mapGet s.challenges v with _ | data
      · simp [hm] at hok
      · cases data with
        | registrationChallenge u cr =>
            by_cases hv : ver.verified
            · simp only [hm, hv, if_true]
              exact mapGet_mapDelete_self s.challenges v hnd
            · simp [hm, hv] at hok
        | authenticationChallenge u cr => simp [hm] at hok
        | stepupChallenge t2 otpv exp cr => simp [hm] at hok
    · unfold loginVerify at hok ⊢
      rcases hm : mapGet s.challenges v with _ | data
      · simp [hm] at hok
      · cases data with
        | registrationChallenge u cr => simp [hm] at hok
        | authenticationChallenge u cr =>
            rcases hc : findCredential u.credentials cid with _ | c
            · simp [hm, hc] at hok
            · by_cases hv : ver.verified
              · simp only [hm, hc, hv, if_true]
                exact mapGet_mapDelete_self s.challenges v hnd
              · simp [hm, hc, hv] at hok
        | stepupChallenge t2 otpv exp cr => simp [hm] at hok
    · rcases hm : mapGet s.challenges v with _ | data
      · rw [stepupVerify_not_found s v tid now hm] at hok
        exact StepupResult.noConfusion hok
      · cases data with
        | registrationChallenge u cr =>
            rw [stepupVerify_wrong_kind_reg s v tid now cr u hm] at hok
            exact StepupResult.noConfusion hok
        | authenticationChallenge u cr =>
            rw [stepupVerify_wrong_kind_auth s v tid now cr u hm] at hok
            exact StepupResult.noConfusion hok
        | stepupChallenge t2 otpv exp cr =>
            by_cases htid : t2.id ≠ tid
            · rw [stepupVerify_mismatch s v tid otpv now exp cr t2 hm htid]
                at hok
              exact StepupResult.noConfusion hok
            · have htid' : t2.id = tid := not_not.mp htid
              by_cases hexp : now > exp
              · rw [stepupVerify_expired s v tid otpv now exp cr t2 hm htid'
                  hexp] at hok
                exact StepupResult.noConfusion hok
              · rw [stepupVerify_success s v tid otpv now exp cr t2 hm htid'
                  hexp]
                exact mapGet_mapDelete_self s.challenges v hnd
  · intro hnone
    refine ⟨fun ver tps => ?_, fun cid ver => ?_, fun tid now => ?_⟩
    · exact registerVerify_invalid s v ver tps (fun u cr h => by
        rw [hnone] at h; exact Option.noConfusion h)
    · exact loginVerify_invalid s v cid ver (fun u cr h => by
        rw [hnone] at h; exact Option.noConfusion h)
    · exact stepupVerify_not_found s v tid now hnone

/-- Concrete fixtures used by the witnesses below. -/
def sampleTransaction : Transaction :=
  { id := "tx1", amount := 200, description := "transfer", userId := "u1",
    status := "pending" }

def sampleStepupState : ServerState :=
  { users := [],
    challenges := [("111111", .stepupChallenge sampleTransaction "111111" 1000 0)],
    transactions := [], signupCompletedPasskey := 0, stepUpTriggered := 0,
    stepUpCompletedCount := 0 }

/-- C1 witness: in the concrete state holding step-up challenge `111111`,
the first consume succeeds and removes the entry; a consume of an absent
value fails `Invalid OTP` without touching the state. -/
theorem challenge_consume_at_most_once_witness :
    mapGet ((stepupVerify "111111" "tx1" 500 sampleStepupState).2).challenges
        "111111" = none
  ∧ stepupVerify "000000" "tx1" 600 sampleStepupState
      = (.failure .invalidOtp, sampleStepupState) := by
  constructor
  · exact (challenge_consume_at_most_once sampleStepupState "111111"
      (by decide)).1.2.2 "tx1" 500 { sampleTransaction with status := "completed" }
      (by decide)
  · exact ((challenge_consume_at_most_once sampleStepupState "000000"
      (by decide)).2 (by decide)).2.2 "tx1" 600

/-! ### C2 -/

/-- Counter currently stored for credential `cid` of the user keyed by
`email`. -/
def storedCounter (s : ServerState) (email cid : String) : Option Int :=
  (mapGet s.users email).bind fun u =>
    (findCredential u.credentials cid).map fun c => c.counter

def sampleCredential : Credential :=
  { id := "cred1", publicKey := "pk", counter := 5, transports := [] }

def sampleAuthUser : User :=
  { id := "u1", username := "alice", email := "alice", credentials :=
      [sampleCredential] }

def sampleAuthState : ServerState :=
  { users := [("alice", sampleAuthUser)],
    challenges := [("authch", .authenticationChallenge sampleAuthUser 0)],
    transactions := [], signupCompletedPasskey := 0, stepUpTriggered := 0,
    stepUpCompletedCount := 0 }

/-- C2 counterexample: the login-verify handler performs no regression check
of its own.  With stored counter 5, a verifier result reporting
`verified = true` and `newCounter = 0` is accepted (the handler answers
success) and the stored counter is overwritten with the smaller value 0 —
refuting that such an authentication fails and that the stored counter is
never overwritten with a smaller value. -/
theorem counter_regression_accepted_cex :
    storedCounter sampleAuthState "alice" "cred1" = some 5
  ∧ (loginVerify "authch" "cred1" { verified := true, newCounter := 0 }
        sampleAuthState).1 = VerifyResult.ok
  ∧ storedCounter
        ((loginVerify "authch" "cred1" { verified := true, newCounter := 0 }
          sampleAuthState).2) "alice" "cred1" = some 0
  ∧ ¬ (5 : Int) ≤ 0 := by decide

theorem findCredential_updateCounterFirst (cs : List Credential)
    (cid : String) (n : Int) (c : Credential)
    (h : findCredential cs cid = some c) :
    findCredential (updateCounterFirst cs cid n) cid
      = some { c with counter := n } := by
  induction cs with
  | nil => exact Option.noConfusion h
  | cons c0 rest ih =>
      by_cases h0 : c0.id = cid
      · simp only [findCredential, if_pos h0, Option.some.injEq] at h
        subst h
        simp [updateCounterFirst, findCredential, h0]
      · simp only [findCredential, if_neg h0] at h
        simp only [updateCounterFirst, if_neg h0, findCredential, if_neg h0]
        exact ih h

/-- C2 amended: the server itself never compares the verifier-reported
counter with the stored one.  On any verifier result with
`verified = true` the authentication succeeds and the stored counter is
overwritten with the reported `newCounter`, whatever its relation to the
stored value; the non-decreasing invariant therefore holds only when the
external verifier reports a strictly greater counter. -/
theorem counter_overwritten_with_reported_value (s : ServerState)
    (v cid : String) (ver : AuthVerification) (u : User) (cr : Int)
    (c : Credential)
    (hch : mapGet s.challenges v = some (.authenticationChallenge u cr))
    (hcred : findCredential u.credentials cid = some c)
    (hv : ver.verified = true) :
    (loginVerify v cid ver s).1 = VerifyResult.ok
  ∧ storedCounter ((loginVerify v cid ver s).2) u.email cid
      = some ver.newCounter := by
  unfold loginVerify
  simp only [hch, hcred, hv, if_true]
  refine ⟨trivial, ?_⟩
  unfold storedCounter
  have hget := mapGet_mapSet_self s.users u.email
    { u with credentials := updateCounterFirst u.credentials cid ver.newCounter }
  simp [hget,
    findCredential_updateCounterFirst u.credentials cid ver.newCounter c hcred]

/-- C2 witness: applying the amended theorem in the concrete state with
stored counter 5 and a verifier-reported counter 7 gives success with
stored counter 7. -/
theorem counter_overwritten_with_reported_value_witness :
    (loginVerify "authch" "cred1" { verified := true, newCounter := 7 }
        sampleAuthState).1 = VerifyResult.ok
  ∧ storedCounter
        ((loginVerify "authch" "cred1" { verified := true, newCounter := 7 }
          sampleAuthState).2) "alice" "cred1" = some 7 :=
  counter_overwritten_with_reported_value sampleAuthState "authch" "cred1"
    { verified := true, newCounter := 7 } sampleAuthUser 0 sampleCredential
    (by decide) (by decide) rfl

/-! ### C3 -/

/-- C3 counterexample: consuming the step-up challenge `111111` (expiry
1000) for the first time at time 2000 does not fail with the
invalid-challenge error the handler uses for not-found/wrong-kind/consumed
values (`Invalid OTP`): it fails with the distinct `OTP expired` error.
Registration and authentication challenges are not issued with a TTL at
all — their consume handlers take no clock input — so the claim's
quantification over those kinds is empty in this code. -/
theorem expired_consume_error_kind_cex :
    (stepupVerify "111111" "tx1" 2000 sampleStepupState).1
        = StepupResult.failure .otpExpired
  ∧ (stepupVerify "999999" "tx1" 2000 sampleStepupState).1
        = StepupResult.failure .invalidOtp
  ∧ StepupError.otpExpired ≠ StepupError.invalidOtp := by decide

/-- C3 amended: only step-up challenges carry a TTL (5 minutes);
registration and authentication challenges are issued without one and are
never expiry-checked on consume (a verified first consume succeeds
regardless of age).  For a step-up challenge, a consume strictly after the
expiry fails even on first attempt: with the distinct error `OTP expired`
(and deletion of the entry) when the transaction id matches, or with
`Transaction ID mismatch` (entry kept) when it does not. -/
theorem stepup_expiry_enforced (s : ServerState) (otp tid otpv : String)
    (now exp cr : Int) (t : Transaction)
    (hch : mapGet s.challenges otp = some (.stepupChallenge t otpv exp cr))
    (hexp : now > exp) :
    (t.id = tid →
       stepupVerify otp tid now s =
         (.failure .otpExpired,
          { s with challenges := mapDelete s.challenges otp }))
  ∧ (t.id ≠ tid →
       stepupVerify otp tid now s = (.failure .transactionMismatch, s))
  ∧ (∀ v u cr2 ver tps,
       mapGet s.challenges v = some (.registrationChallenge u cr2) →
       ver.verified = true →
       (registerVerify v ver tps s).1 = VerifyResult.ok) := by
  refine ⟨fun htid => ?_, fun hne => ?_, fun v u cr2 ver tps hv hver => ?_⟩
  · exact stepupVerify_expired s otp tid otpv now exp cr t hch htid hexp
  · exact stepupVerify_mismatch s otp tid otpv now exp cr t hch hne
  · unfold registerVerify
    simp [hv, hver]

/-- C3 witness: applying the amended theorem to the concrete expired state:
the first consume at time 2000 of challenge `111111` (expiry 1000) fails
`OTP expired` and deletes the entry. -/
theorem stepup_expiry_enforced_witness :
    stepupVerify "111111" "tx1" 2000 sampleStepupState =
      (.failure .otpExpired,
       { sampleStepupState with
           challenges := mapDelete sampleStepupState.challenges "111111" }) :=
  (stepup_expiry_enforced sampleStepupState "111111" "tx1" "111111" 2000
    1000 0 sampleTransaction (by decide) (by decide)).1 rfl

/-! ### C4 -/

/-- Client state in the spec's own scenario: the user prefers `device` but
no platform authenticator exists, so only `pin` is available. -/
def fallbackClientState : ClientState :=
  { availableMethods := ["pin"], platformAuthenticator := false,
    authPreference := some "device", storedPreference := some "device" }

/-- Client state with both methods available. -/
def fallbackClientStateBoth : ClientState :=
  { availableMethods := ["device", "pin"], platformAuthenticator := true,
    authPreference := some "device", storedPreference := some "device" }

/-- C4: evaluation of the fallback wrapper at the failing inputs.  In the
spec's scenario (preference `device`, no platform authenticator, fallback
to `pin` succeeds) the result is tagged `usedFallback = true` with method
`pin`, but the persisted preference after the call is `pin`, not the
pre-call `device`: the restore call `setAuthPreference('device')` is
refused because `device` is not among `availableMethods`.  On the
begin-failure retry path the preference is also left at the fallback value
even though the original is available, because the catch block runs
`setAuthPreference(getAuthPreference())`, which stores the current value
back into itself. -/
theorem fallback_preference_not_restored :
    (tryFallbackAuthentication .retrySuccess fallbackClientState).1
        = FallbackResult.ok true "pin"
  ∧ ((tryFallbackAuthentication .retrySuccess fallbackClientState).2).authPreference
        = some "pin"
  ∧ ((tryFallbackAuthentication .beginFailure fallbackClientStateBoth).2).authPreference
        = some "pin"
  ∧ fallbackClientState.authPreference = some "device"
  ∧ fallbackClientStateBoth.authPreference = some "device" := by decide

/-! ### C5 -/

theorem mapGet_dbUpdateStatus (tbl : List (String × DbTransaction))
    (id status : String) :
    mapGet (dbUpdateStatus tbl id status) id
      = (mapGet tbl id).map fun r => { r with status := status } := by
  induction tbl with
  | nil => rfl
  | cons hd tl ih =>
      obtain ⟨k, r⟩ := hd
      by_cases hk : k = id
      · subst hk
        simp [dbUpdateStatus, mapGet]
      · simp only [dbUpdateStatus, mapGet, if_neg hk]
        exact ih

theorem mapGet_dbMarkStepupCompleted (tbl : List (String × DbTransaction))
    (id : String) :
    mapGet (dbMarkStepupCompleted tbl id) id
      = (mapGet tbl id).map fun r => { r with stepupCompleted := true } := by
  induction tbl with
  | nil => rfl
  | cons hd tl ih =>
      obtain ⟨k, r⟩ := hd
      by_cases hk : k = id
      · subst hk
        simp [dbMarkStepupCompleted, mapGet]
      · simp only [dbMarkStepupCompleted, mapGet, if_neg hk]
        exact ih

theorem dbStepupVerify_not_found (s : DbState) (otp tid : String)
    (now : Int) (h : mapGet s.challenges otp = none) :
    dbStepupVerify otp tid now s = (.failure .invalidOtp, s) := by
  simp [dbStepupVerify, h]

/-- C5: in the database-backed server, a `verifyStepUp` call with the
correct unexpired OTP and the matching transaction id succeeds, sets the
stored transaction's status to `completed` and its `stepup_completed` flag
to `true`, increments the step-up-completed counter by exactly one, and a
resubmission of the same OTP afterwards (any time, any transaction id)
fails with the invalid-challenge error `Invalid OTP`. -/
theorem stepup_success_completes_transaction (s : DbState)
    (otp tid otpv : String) (now exp cr : Int) (t row : DbTransaction)
    (hch : mapGet s.challenges otp = some (.stepupChallenge t otpv exp cr))
    (htid : t.id = tid) (hexp : ¬ now > exp)
    (hrow : mapGet s.transactionsTable tid = some row)
    (hnd : (s.challenges.map Prod.fst).Nodup) :
    (∃ u, (dbStepupVerify otp tid now s).1 = DbStepupResult.ok u)
  ∧ mapGet ((dbStepupVerify otp tid now s).2).transactionsTable tid
      = some { row with status := "completed", stepupCompleted := true }
  ∧ ((dbStepupVerify otp tid now s).2).stepUpCompletedCount
      = s.stepUpCompletedCount + 1
  ∧ (∀ tid2 now2,
      dbStepupVerify otp tid2 now2 ((dbStepupVerify otp tid now s).2)
        = (.failure .invalidOtp, (dbStepupVerify otp tid now s).2)) := by
  have hrun : dbStepupVerify otp tid now s =
      ( .ok (mapGet (dbUpdateStatus s.transactionsTable t.id "completed") t.id),
        { s with
            transactionsTable :=
              dbMarkStepupCompleted
                (dbUpdateStatus s.transactionsTable t.id "completed") t.id,
            stepUpCompletedCount := s.stepUpCompletedCount + 1,
            challenges := mapDelete s.challenges otp } ) := by
    simp [dbStepupVerify, hch, htid, hexp]
  refine ⟨⟨_, by rw [hrun]⟩, ?_, by rw [hrun], fun tid2 now2 => ?_⟩
  · rw [hrun]
    simp only [htid, mapGet_dbMarkStepupCompleted, mapGet_dbUpdateStatus,
      hrow]
    simp
  · refine dbStepupVerify_not_found _ otp tid2 now2 ?_
    rw [hrun]
    exact mapGet_mapDelete_self s.challenges otp hnd

def sampleDbTransaction : DbTransaction :=
  { id := "tx9", userId := "u1", amount := 200, requiresStepup := true,
    status := "pending", stepupCompleted := false }

def sampleDbState : DbState :=
  { transactionsTable := [("tx9", sampleDbTransaction)],
    challenges :=
      [("654321", .stepupChallenge sampleDbTransaction "654321" 1000 0)],
    stepUpCompletedCount := 3 }

/-- C5 witness: applying the theorem in the concrete database-backed state:
the consume of OTP `654321` at time 500 completes transaction `tx9`, sets
its flag, bumps the counter from 3 to 4, and a replay of the same OTP
fails `Invalid OTP`. -/
theorem stepup_success_completes_transaction_witness :
    (∃ u, (dbStepupVerify "654321" "tx9" 500 sampleDbState).1
        = DbStepupResult.ok u)
  ∧ mapGet ((dbStepupVerify "654321" "tx9" 500 sampleDbState).2).transactionsTable
        "tx9"
      = some { sampleDbTransaction with
                 status := "completed", stepupCompleted := true }
  ∧ ((dbStepupVerify "654321" "tx9" 500 sampleDbState).2).stepUpCompletedCount = 4
  ∧ (∀ tid2 now2,
      dbStepupVerify "654321" tid2 now2
          ((dbStepupVerify "654321" "tx9" 500 sampleDbState).2)
        = (.failure .invalidOtp, (dbStepupVerify "654321" "tx9" 500 sampleDbState).2)) :=
  stepup_success_completes_transaction sampleDbState "654321" "tx9" "654321"
    500 1000 0 sampleDbTransaction sampleDbTransaction (by decide) rfl
    (by decide) (by decide) (by decide)

/-! ### C6 -/

/-- C6: `requiresStepUp` is decided by a strict greater-than against the
threshold 150.  For any transaction with well-formed inputs: the response
reports step-up exactly when `amount > 150`; at or below 150 the
transaction is completed directly and appended to the recorded
transactions; above 150 nothing is recorded yet — the only trace is the
step-up challenge holding the still-pending transaction, so the
transaction is not finalized until the OTP is verified. -/
theorem stepup_threshold_strict (amount : ℚ)
    (description userId ftid otp : String) (now : Int) (s : ServerState)
    (ha : amount ≠ 0) (hd : description ≠ "") (hu : userId ≠ "") :
    ((submitTransaction amount description userId ftid otp now s).1
        = SubmitResult.stepUpRequired ftid ↔ amount > 150)
  ∧ (¬ amount > 150 →
       (submitTransaction amount description userId ftid otp now s).1
           = SubmitResult.completedDirectly
               { id := ftid, amount := amount, description := description,
                 userId := userId, status := "completed" }
     ∧ ((submitTransaction amount description userId ftid otp now s).2).transactions
           = s.transactions ++
               [{ id := ftid, amount := amount, description := description,
                  userId := userId, status := "completed" }])
  ∧ (amount > 150 →
       ((submitTransaction amount description userId ftid otp now s).2).transactions
           = s.transactions
     ∧ mapGet ((submitTransaction amount description userId ftid otp now s).2).challenges
           otp
         = some (.stepupChallenge
             { id := ftid, amount := amount, description := description,
               userId := userId, status := "pending" }
             otp (now + 5 * 60 * 1000) now)) := by
  by_cases hgt : amount > 150
  · refine ⟨?_, fun hn => absurd hgt hn, fun _ => ⟨?_, ?_⟩⟩
    · simp [submitTransaction, ha, hd, hu, hgt]
    · simp [submitTransaction, ha, hd, hu, hgt]
    · simp only [submitTransaction, ha, hd, hu, hgt]
      simp [mapGet_mapSet_self]
  · refine ⟨?_, fun _ => ⟨?_, ?_⟩, fun hgt2 => absurd hgt2 hgt⟩
    · simp [submitTransaction, ha, hd, hu, hgt]
    · simp [submitTransaction, ha, hd, hu, hgt]
    · simp [submitTransaction, ha, hd, hu, hgt]

def emptyServerState : ServerState :=
  { users := [], challenges := [], transactions := [],
    signupCompletedPasskey := 0, stepUpTriggered := 0,
    stepUpCompletedCount := 0 }

/-- C6 witness: amount 150.00 completes directly (no step-up); amount
150.01 requires step-up and records nothing yet. -/
theorem stepup_threshold_strict_witness :
    (submitTransaction (150 : ℚ) "d" "u" "tx" "222222" 0 emptyServerState).1
        = SubmitResult.completedDirectly
            { id := "tx", amount := 150, description := "d", userId := "u",
              status := "completed" }
  ∧ (submitTransaction ((15001 : ℚ) / 100) "d" "u" "tx" "222222" 0
        emptyServerState).1 = SubmitResult.stepUpRequired "tx"
  ∧ ((submitTransaction ((15001 : ℚ) / 100) "d" "u" "tx" "222222" 0
        emptyServerState).2).transactions = [] := by
  refine ⟨?_, ?_, ?_⟩
  · exact ((stepup_threshold_strict 150 "d" "u" "tx" "222222" 0
      emptyServerState (by norm_num) (by decide) (by decide)).2.1
      (by norm_num)).1
  · exact (stepup_threshold_strict ((15001 : ℚ) / 100) "d" "u" "tx" "222222"
      0 emptyServerState (by norm_num) (by decide) (by decide)).1.mpr
      (by norm_num)
  · have h := ((stepup_threshold_strict ((15001 : ℚ) / 100) "d" "u" "tx"
      "222222" 0 emptyServerState (by norm_num) (by decide) (by decide)).2.2
      (by norm_num)).1
    simpa [emptyServerState] using h

/-! ### C7 -/

def sampleMixedState : ServerState :=
  { users := [],
    challenges :=
      [("regch", .registrationChallenge sampleAuthUser 0),
       ("222333", .stepupChallenge sampleTransaction "222333" 1000 0)],
    transactions := [], signupCompletedPasskey := 0, stepUpTriggered := 0,
    stepUpCompletedCount := 0 }

/-- C7 counterexample: two failing consume calls with different internal
causes are distinguishable.  In the concrete state, consuming the expired
step-up challenge `222333` at time 5000 fails with `OTP expired`, while
consuming the absent value `444444` fails with `Invalid OTP`, and
consuming `regch` (present but of registration kind) also fails with
`Invalid OTP` — so the expiry cause yields a different error kind than
not-found and wrong-kind. -/
theorem consume_failures_distinguishable_cex :
    (stepupVerify "222333" "tx1" 5000 sampleMixedState).1
        = StepupResult.failure .otpExpired
  ∧ (stepupVerify "444444" "tx1" 5000 sampleMixedState).1
        = StepupResult.failure .invalidOtp
  ∧ (stepupVerify "regch" "tx1" 5000 sampleMixedState).1
        = StepupResult.failure .invalidOtp
  ∧ StepupResult.failure StepupError.otpExpired
        ≠ StepupResult.failure StepupError.invalidOtp := by decide

/-- C7 amended: the not-found, wrong-kind and already-consumed failure
causes of a step-up consume are indistinguishable (all yield `Invalid OTP`
with no state change, and an already-consumed value is a not-found value
because consumption deletes the entry); likewise the registration handler
answers one `Invalid challenge` error for not-found and wrong-kind.  But an
expired-but-present step-up challenge fails with the distinct `OTP expired`
error, and a transaction-id mismatch with a third kind, so those causes are
distinguishable by the caller. -/
theorem consume_failure_uniformity_amended (s : ServerState)
    (otp tid : String) (now : Int) :
    (mapGet s.challenges otp = none →
        stepupVerify otp tid now s = (.failure .invalidOtp, s))
  ∧ (∀ u cr, mapGet s.challenges otp = some (.registrationChallenge u cr) →
        stepupVerify otp tid now s = (.failure .invalidOtp, s))
  ∧ (∀ u cr, mapGet s.challenges otp = some (.authenticationChallenge u cr) →
        stepupVerify otp tid now s = (.failure .invalidOtp, s))
  ∧ (∀ ver tps, mapGet s.challenges otp = none →
        registerVerify otp ver tps s = (.failure "Invalid challenge", s))
  ∧ (∀ t otpv exp cr,
        mapGet s.challenges otp = some (.stepupChallenge t otpv exp cr) →
        t.id = tid → now > exp →
        (stepupVerify otp tid now s).1 = StepupResult.failure .otpExpired) := by
  refine ⟨fun h => stepupVerify_not_found s otp tid now h,
    fun u cr h => stepupVerify_wrong_kind_reg s otp tid now cr u h,
    fun u cr h => stepupVerify_wrong_kind_auth s otp tid now cr u h,
    fun ver tps h => registerVerify_invalid s otp ver tps ?_,
    fun t otpv exp cr h htid hexp => ?_⟩
  · intro u cr hcontra
    rw [h] at hcontra
    exact Option.noConfusion hcontra
  · rw [stepupVerify_expired s otp tid otpv now exp cr t h htid hexp]

/-- C7 witness: the amended theorem applied in the concrete mixed state:
the absent value fails `Invalid OTP` with unchanged state, and the expired
value fails `OTP expired`. -/
theorem consume_failure_uniformity_amended_witness :
    stepupVerify "444444" "tx1" 5000 sampleMixedState
        = (.failure .invalidOtp, sampleMixedState)
  ∧ (stepupVerify "222333" "tx1" 5000 sampleMixedState).1
        = StepupResult.failure .otpExpired := by
  refine ⟨?_, ?_⟩
  · exact (consume_failure_uniformity_amended sampleMixedState "444444"
      "tx1" 5000).1 (by decide)
  · exact (consume_failure_uniformity_amended sampleMixedState "222333"
      "tx1" 5000).2.2.2.2 sampleTransaction "222333" 1000 0 (by decide) rfl
      (by decide)

/-! ### C8 -/

def noApiEnv : BrowserEnv :=
  { apiPresent := false, hasUVPAAFunction := false, uvpaaResult := false,
    isSecureContext := true, protocolHttps := true,
    hostnameIsLocalhost := false }

/-- C8 counterexample: in an environment without the WebAuthn client API,
`determineAvailableMethods` still pushes `pin`: `availableMethods` is
`[pin]`, not empty, and the secure-context probe still runs (it reports
`true` here), so neither is `pin` present only when the API exists nor are
all capabilities false when the API is absent. -/
theorem pin_without_api_cex :
    (detectCapabilities noApiEnv).webauthnSupported = false
  ∧ (detectCapabilities noApiEnv).availableMethods = ["pin"]
  ∧ (detectCapabilities noApiEnv).availableMethods ≠ []
  ∧ (detectCapabilities noApiEnv).secureContext = true := by decide

/-- C8 amended: `availableMethods` is derived deterministically from the
probes, but `pin` is unconditionally present (API or not): `device` is
present iff the platform-authenticator probe succeeded (which requires the
API), `pin` is always present, and `both` is present iff `device` is; when
the API is absent, `webauthnSupported` and `platformAuthenticator` are
false (so only `pin` is offered) while the secure-context probes still
run. -/
theorem available_methods_derivation (e : BrowserEnv) :
    ("device" ∈ (detectCapabilities e).availableMethods
        ↔ (detectCapabilities e).platformAuthenticator = true)
  ∧ "pin" ∈ (detectCapabilities e).availableMethods
  ∧ ("both" ∈ (detectCapabilities e).availableMethods
        ↔ "device" ∈ (detectCapabilities e).availableMethods)
  ∧ (e.apiPresent = false →
        (detectCapabilities e).webauthnSupported = false
      ∧ (detectCapabilities e).platformAuthenticator = false
      ∧ (detectCapabilities e).availableMethods = ["pin"]) := by
  obtain ⟨api, uvpaaFn, uvpaa, sec, https, lh⟩ := e
  cases api <;> cases uvpaaFn <;> cases uvpaa <;> cases sec <;> cases https
    <;> cases lh <;> decide

/-- C8 witness: the amended theorem applied to the API-less environment:
the platform authenticator is reported unavailable and only `pin` is
offered. -/
theorem available_methods_derivation_witness :
    (detectCapabilities noApiEnv).webauthnSupported = false
  ∧ (detectCapabilities noApiEnv).platformAuthenticator = false
  ∧ (detectCapabilities noApiEnv).availableMethods = ["pin"] :=
  (available_methods_derivation noApiEnv).2.2.2 rfl

/-! ### C9 -/

def existingUserState : ServerState :=
  { users := [("alice", sampleAuthUser)], challenges := [],
    transactions := [], signupCompletedPasskey := 0, stepUpTriggered := 0,
    stepUpCompletedCount := 0 }

/-- C9 counterexample: a `beginRegistration` call for an identity that
already exists does not succeed: with `alice` already registered, the
options route answers the error `User already exists`, returns no ceremony
options, and issues no challenge (the state is unchanged). -/
theorem existing_identity_rejected_cex :
    registerOptions "alice" "alice" "uid2" "newch" 0 existingUserState
        = (.failure "User already exists", existingUserState)
  ∧ (∀ c, (registerOptions "alice" "alice" "uid2" "newch" 0
        existingUserState).1 ≠ RegOptionsResult.ok c) := by
  constructor
  · decide
  · intro c h
    have h1 : (registerOptions "alice" "alice" "uid2" "newch" 0
        existingUserState).1
          = RegOptionsResult.failure "User already exists" := by decide
    rw [h1] at h
    exact RegOptionsResult.noConfusion h

/-- C9 amended: `beginRegistration` succeeds only for identities that do
not yet exist.  For a new e-mail it builds a fresh user object (persisted
only later, at verification), stores a registration challenge holding it
and returns the options embedding the fresh challenge value; for an e-mail
that is already registered it fails `User already exists` and changes
nothing. -/
theorem register_options_new_identity_only (s : ServerState)
    (username email uid ch : String) (now : Int)
    (hu : username ≠ "") (he : email ≠ "") :
    ((mapGet s.users email).isSome →
        registerOptions username email uid ch now s
          = (.failure "User already exists", s))
  ∧ (mapGet s.users email = none →
        registerOptions username email uid ch now s
          = (.ok ch,
             { s with
                 challenges := mapSet s.challenges ch
                     (.registrationChallenge
                       (User.mk uid username email []) now) })) := by
  constructor
  · intro hsome
    simp [registerOptions, hu, he, hsome]
  · intro hnone
    simp [registerOptions, hu, he, hnone]

/-- C9 witness: the amended theorem at concrete inputs — a fresh e-mail
`bob` gets options with the fresh challenge stored; the existing `alice`
is rejected. -/
theorem register_options_new_identity_only_witness :
    registerOptions "bob" "bob" "uid3" "bobch" 7 existingUserState
        = (.ok "bobch",
           { existingUserState with
               challenges := mapSet existingUserState.challenges "bobch"
                   (.registrationChallenge (User.mk "uid3" "bob" "bob" []) 7) })
  ∧ registerOptions "alice" "alice" "uid2" "newch" 0 existingUserState
        = (.failure "User already exists", existingUserState) := by
  constructor
  · exact (register_options_new_identity_only existingUserState "bob" "bob"
      "uid3" "bobch" 7 (by decide) (by decide)).2 (by decide)
  · exact (register_options_new_identity_only existingUserState "alice"
      "alice" "uid2" "newch" 0 (by decide) (by decide)).1 (by decide)

/-! ### C10 -/

/-- C10: a step-up consume with the correct, unexpired OTP but a mismatched
transaction id fails `Transaction ID mismatch` and returns the state
completely unchanged — the challenge entry, the recorded transactions and
every counter are intact — and a subsequent consume of the same OTP with
the matching transaction id (while unexpired) still succeeds. -/
theorem stepup_mismatch_preserves_challenge (s : ServerState)
    (otp tid otpv : String) (now exp cr : Int) (t : Transaction)
    (hch : mapGet s.challenges otp = some (.stepupChallenge t otpv exp cr))
    (hne : t.id ≠ tid) :
    stepupVerify otp tid now s = (.failure .transactionMismatch, s)
  ∧ (¬ now > exp →
       (stepupVerify otp t.id now s).1
         = StepupResult.ok { t with status := "completed" }) := by
  refine ⟨stepupVerify_mismatch s otp tid otpv now exp cr t hch hne,
    fun hexp => ?_⟩
  rw [stepupVerify_success s otp t.id otpv now exp cr t hch rfl hexp]

/-- C10 witness: in the concrete state, submitting OTP `111111` with the
wrong transaction id `txOther` fails with a mismatch and changes nothing,
after which the same OTP with the right id `tx1` succeeds. -/
theorem stepup_mismatch_preserves_challenge_witness :
    stepupVerify "111111" "txOther" 500 sampleStepupState
        = (.failure .transactionMismatch, sampleStepupState)
  ∧ (stepupVerify "111111" "tx1" 500 sampleStepupState).1
        = StepupResult.ok { sampleTransaction with status := "completed" } := by
  have h := stepup_mismatch_preserves_challenge sampleStepupState "111111"
    "txOther" "111111" 500 1000 0 sampleTransaction (by decide) (by decide)
  exact ⟨h.1, h.2 (by decide)⟩

end ModernAuth
